import Mathlib

/-!
Shallow embedding of the conversation-orchestration core of the
customer-support chatbot backend: the `ChatService` operations
(`create_conversation`, `send_message`, `get_conversation_history`,
`escalate_conversation`, `get_conversation_summary`) from
`backend/app/services/chat_service.py` and the MCP tools
(`get_customer_info`, `process_refund`, `manage_subscription`,
`escalate_to_human`, `generate_ai_response`) from
`backend/app/mcp/server.py`, over the SQLAlchemy data model of
`backend/app/db/models/conversation.py`.

The database is modelled as in-memory tables with auto-increment id
counters and a logical clock standing for the `func.now()` timestamps
(`created_at`): `func.now()` is frozen for the duration of one
transaction, so every row written by one operation carries the same
timestamp, and the clock advances only at commit — in particular the
customer and AI messages of one turn tie on `created_at`.  The external
Gemini generation call is an oracle (`GenOracle`):
whether the call raises, and the text it returns as a function of the
prompt.  Session/transaction semantics: operations return the committed
database; `send_message` additionally takes a `FailSpec` oracle saying
whether the flush or the commit raises, in which case the session is
closed without committing and the committed state is unchanged.
-/

/-- `MessageSenderType` enum of the data model. -/
inductive SenderType where
  | customer
  | ai
  | human_agent
  | system
deriving DecidableEq

/-- `ConversationStatus` enum of the data model. -/
inductive ConvStatus where
  | active
  | resolved
  | escalated
  | archived
deriving DecidableEq

/-- `SupportActionStatus` enum of the data model. -/
inductive ActionStatus where
  | pending
  | in_progress
  | completed
  | failed
  | cancelled
deriving DecidableEq

/-- A row of the `customers` table (fields used by the core).
`organization_id` is declared NOT NULL in the schema, but the chat
service writes customers without it, hence `Option`. -/
structure CustomerR where
  id : Nat
  organization_id : Option Nat := none
  email : String
  name : Option String := none
  subscription_status : Option String := none
  subscription_plan : Option String := none
  total_spent : Option String := none
deriving DecidableEq

/-- A row of the `conversations` table (fields used by the core). -/
structure ConversationR where
  id : Nat
  organization_id : Option Nat := none
  session_id : String
  customer_email : String
  customer_name : Option String := none
  status : ConvStatus := ConvStatus.active
  created_at : Nat := 0
deriving DecidableEq

/-- A row of the `messages` table.  The `message_metadata` JSON dict the
service stores is flattened into its possible keys (`confidence`,
`suggested_actions`, `error`, `escalation_reason`); `created_at` is the
insertion tick of the logical clock. -/
structure MessageR where
  id : Nat
  conversation_id : Nat
  content : String
  sender_type : SenderType
  confidence : Option ℚ := none
  suggested_actions : Option (List String) := none
  error : Option String := none
  escalation_reason : Option String := none
  created_at : Nat
deriving DecidableEq

/-- A row of the `support_actions` table; the `action_data` JSON dict is
flattened into its possible keys. -/
structure SupportActionR where
  id : Nat
  conversation_id : Nat
  action_type : String
  status : ActionStatus
  customer_email : Option String := none
  amount : Option String := none
  reason : Option String := none
  order_id : Option String := none
  old_plan : Option (Option String) := none
  new_plan : Option String := none
  summary : Option String := none
  executed : Bool := false
deriving DecidableEq

/-- The persistent store: the four tables touched by the core, the
auto-increment counters, and the logical insertion clock. -/
structure DB where
  customers : List CustomerR := []
  conversations : List ConversationR := []
  messages : List MessageR := []
  supportActions : List SupportActionR := []
  nextCustomerId : Nat := 1
  nextConversationId : Nat := 1
  nextMessageId : Nat := 1
  nextActionId : Nat := 1
  clock : Nat := 0
deriving DecidableEq

/-- The empty database. -/
def initDB : DB := {}

/-- Append a message row: the database assigns the id; the row's
`created_at` is the transaction timestamp (`func.now()`), which is
frozen while the transaction runs, so appending does not advance the
clock — all rows of one operation share the same timestamp. -/
def addMsg (db : DB) (m : MessageR) : DB :=
  { db with
    messages := db.messages ++ [m]
    nextMessageId := db.nextMessageId + 1 }

/-- Commit: the transaction ends and time moves on — the timestamp the
next transaction will see is strictly later. -/
def tick (db : DB) : DB :=
  { db with clock := db.clock + 1 }

/-- `db.query(Conversation).filter(Conversation.session_id == session_id).first()` -/
def findConv (db : DB) (session_id : String) : Option ConversationR :=
  db.conversations.find? (fun c => decide (c.session_id = session_id))

/-- `db.query(Customer).filter(Customer.email == email).first()` — the
lookup used by `create_conversation`, `get_customer_info` and
`manage_subscription`; it filters by email only, with no tenant scope. -/
def findCustomer (db : DB) (email : String) : Option CustomerR :=
  db.customers.find? (fun c => decide (c.email = email))

/-- Set the status of the conversation row with the given primary key. -/
def setConvStatus (db : DB) (cid : Nat) (st : ConvStatus) : DB :=
  { db with
    conversations := db.conversations.map
      (fun c => if c.id = cid then { c with status := st } else c) }

/-- Update the customer row with the given primary key. -/
def updCustomer (db : DB) (cid : Nat) (f : CustomerR → CustomerR) : DB :=
  { db with
    customers := db.customers.map (fun c => if c.id = cid then f c else c) }

/-- `ChatService.create_conversation`: look up the customer by email
(creating one with defaults if absent), insert an `active` conversation
carrying no organization id, commit, and return the session id (the
freshly generated uuid is a parameter). -/
def create_conversation (db : DB) (session_id customer_email : String)
    (customer_name : Option String) : DB × String :=
  match findCustomer db customer_email with
  | some customer =>
      let conv : ConversationR :=
        { id := db.nextConversationId
          session_id := session_id
          customer_email := customer_email
          customer_name := customer_name.orElse (fun _ => customer.name)
          status := ConvStatus.active
          created_at := db.clock }
      ({ db with
          conversations := db.conversations ++ [conv]
          nextConversationId := db.nextConversationId + 1
          clock := db.clock + 1 }, session_id)
  | none =>
      let customer : CustomerR :=
        { id := db.nextCustomerId
          email := customer_email
          name := customer_name
          subscription_status := some "unknown"
          subscription_plan := some "none"
          total_spent := some "0" }
      let conv : ConversationR :=
        { id := db.nextConversationId
          session_id := session_id
          customer_email := customer_email
          customer_name := customer_name.orElse (fun _ => customer.name)
          status := ConvStatus.active
          created_at := db.clock }
      ({ db with
          customers := db.customers ++ [customer]
          conversations := db.conversations ++ [conv]
          nextCustomerId := db.nextCustomerId + 1
          nextConversationId := db.nextConversationId + 1
          clock := db.clock + 1 }, session_id)

/-- One entry of the history list built by `get_conversation_history`. -/
structure HistEntry where
  id : Nat
  content : String
  sender : SenderType
  timestamp : Nat
deriving DecidableEq

/-- Build a history entry from a message row. -/
def toEntry (m : MessageR) : HistEntry :=
  { id := m.id, content := m.content, sender := m.sender_type,
    timestamp := m.created_at }

/-- Stable insertion by `created_at` (ascending), the order produced by
`order_by(Message.created_at)`. -/
def insertByTime (m : MessageR) : List MessageR → List MessageR
  | [] => [m]
  | x :: xs =>
      if m.created_at < x.created_at then m :: x :: xs
      else x :: insertByTime m xs

/-- Stable sort by `created_at` ascending. -/
def sortByTime : List MessageR → List MessageR
  | [] => []
  | x :: xs => insertByTime x (sortByTime xs)

/-- The query `order_by(Message.created_at)` has no tiebreaker, and rows
of one turn tie on `created_at`, so the database may return any
permutation of the rows that is sorted by non-decreasing `created_at`.
A `QueryOracle` picks the order the database returns. -/
structure QueryOracle where
  sort : List MessageR → List MessageR

/-- `out` is an order the un-tiebroken `ORDER BY created_at` may return
for the row list `rows`: a permutation of `rows`, sorted by
non-decreasing `created_at`. -/
def SortedOf (out rows : List MessageR) : Prop :=
  out.Perm rows ∧
  List.Pairwise (fun a b : MessageR => a.created_at ≤ b.created_at) out

/-- One possible database order: the stable sort. -/
def stableOrd : QueryOracle := ⟨sortByTime⟩

/-- The identity order — valid whenever the rows are already sorted. -/
def idOrd : QueryOracle := ⟨fun l => l⟩

/-- The conversation's message rows in table (insertion) order, before
`ORDER BY` is applied. -/
def historyRows (db : DB) (session_id : String) : List MessageR :=
  match findConv db session_id with
  | none => []
  | some conv => db.messages.filter (fun m => decide (m.conversation_id = conv.id))

/-- `ChatService.get_conversation_history`: unknown session ids yield the
empty list (no error); otherwise the conversation's messages as returned
by `ORDER BY created_at` — the order chosen by the query oracle. -/
def get_conversation_history (q : QueryOracle) (db : DB) (session_id : String) :
    List HistEntry :=
  match findConv db session_id with
  | none => []
  | some _ => (q.sort (historyRows db session_id)).map toEntry

/-- The record returned by the MCP resource `get_customer_info`;
missing customers yield the default record, not an error. -/
structure CustomerInfo where
  email : String
  name : String
  subscription_status : String
  subscription_plan : String
  total_spent : String
deriving DecidableEq

/-- MCP resource `customer://{email}` — `get_customer_info`. -/
def get_customer_info (db : DB) (email : String) : CustomerInfo :=
  match findCustomer db email with
  | some customer =>
      { email := customer.email
        name := customer.name.getD "Unknown"
        subscription_status := customer.subscription_status.getD "unknown"
        subscription_plan := customer.subscription_plan.getD "none"
        total_spent := customer.total_spent.getD "0" }
  | none =>
      { email := email
        name := "Unknown"
        subscription_status := "unknown"
        subscription_plan := "none"
        total_spent := "0" }

/-- The dict returned by `generate_ai_response`. -/
structure AIResponse where
  success : Bool
  response : String
  confidence : ℚ
  suggested_actions : List String
  error_note : Option String := none
deriving DecidableEq

/-- Oracle for the external Gemini call: whether
`model.generate_content` (or anything else in the `try` block) raises,
the text the model returns as a function of the prompt, and `str(e)` of
the exception when it raises. -/
structure GenOracle where
  raises : Bool
  generate : String → String
  errMsg : String := ""

/-- The grounding prompt built by `generate_ai_response`. -/
def buildContext (info : CustomerInfo) (customer_message : String) : String :=
  "You are a helpful customer support AI assistant. \n\nCustomer Information:\n- Email: "
    ++ info.email ++ "\n- Name: " ++ info.name ++ "\n- Subscription Status: "
    ++ info.subscription_status ++ "\n- Subscription Plan: " ++ info.subscription_plan
    ++ "\n\nCustomer Message: " ++ customer_message
    ++ "\n\nPlease provide a helpful, empathetic response. Be professional and offer to help with their inquiry."

/-- The fixed mock text returned by the `except` branch of
`generate_ai_response`. -/
def fallbackText : String :=
  "Hello! I understand you need help with your subscription. As a customer support AI, I\x27m here to assist you. Could you please provide more details about what specific help you need with your subscription? I can help with billing questions, plan changes, cancellations, or other subscription-related issues."

/-- MCP tool `generate_ai_response`: build the prompt from the customer
record (read via a fresh session, i.e. from the committed state) and the
inbound message, call the model once; on any exception return the fixed
mock response — with `success` still `True` — instead of raising. -/
def generate_ai_response (o : GenOracle) (db : DB)
    (customer_message customer_email : String)
    (conversation_history : List HistEntry) : AIResponse :=
  if o.raises then
    { success := true
      response := fallbackText
      confidence := 75/100
      suggested_actions := ["billing_inquiry", "subscription_change"]
      error_note := some ("Gemini API error (using fallback): " ++ o.errMsg) }
  else
    let customer_info := get_customer_info db customer_email
    let context := buildContext customer_info customer_message
    let _ := conversation_history
    { success := true
      response := o.generate context
      confidence := 85/100
      suggested_actions := []
      error_note := none }

/-- The apology text of the degraded-error branch of `send_message`. -/
def apologyText : String :=
  "I apologize, but I\x27m experiencing technical difficulties. Let me connect you with a human agent."

/-- The dict returned by `ChatService.send_message`. -/
structure TurnResult where
  message_id : Nat
  ai_response : Option String := none
  ai_message_id : Option Nat := none
  confidence : Option ℚ := none
  error : Bool := false
deriving DecidableEq

/-- Failure oracle for the session of one `send_message` turn: whether
`flush()` raises, and whether `commit()` raises.  Either failure closes
the session without committing. -/
structure FailSpec where
  flushFails : Bool := false
  commitFails : Bool := false

/-- The all-succeeding persistence oracle. -/
def noFail : FailSpec := {}

/-- `ChatService.send_message`: resolve the conversation by session id
(no status filter), add the inbound message, flush; if the sender is a
customer, read the (uncommitted) history, call `generate_ai_response`
against the committed state, append the AI (or apology) message and
commit everything in one commit (the commit is when time moves on — both
messages of the turn share the transaction timestamp).  The internal
history read uses the stable order; its tie order cannot influence the
turn since the prompt built by `generate_ai_response` does not include
the history.  Returns the committed database and the result
(`ValueError("Conversation not found")` as `Except.error`). -/
def send_message (o : GenOracle) (fl : FailSpec) (db : DB)
    (session_id content : String) (sender_type : SenderType) :
    DB × Except String TurnResult :=
  match findConv db session_id with
  | none => (db, Except.error "Conversation not found")
  | some conv =>
      let cm : MessageR :=
        { id := db.nextMessageId
          conversation_id := conv.id
          content := content
          sender_type := sender_type
          created_at := db.clock }
      let db1 := addMsg db cm
      if fl.flushFails then (db, Except.error "flush failed")
      else if sender_type = SenderType.customer then
        let history := get_conversation_history stableOrd db1 session_id
        let ai := generate_ai_response o db content conv.customer_email history
        if ai.success then
          let am : MessageR :=
            { id := db1.nextMessageId
              conversation_id := conv.id
              content := ai.response
              sender_type := SenderType.ai
              confidence := some ai.confidence
              suggested_actions := some ai.suggested_actions
              created_at := db1.clock }
          let db2 := addMsg db1 am
          if fl.commitFails then (db, Except.error "commit failed")
          else
            (tick db2, Except.ok
              { message_id := cm.id
                ai_response := some ai.response
                ai_message_id := some am.id
                confidence := some ai.confidence })
        else
          let em : MessageR :=
            { id := db1.nextMessageId
              conversation_id := conv.id
              content := apologyText
              sender_type := SenderType.ai
              error := some "Unknown error"
              created_at := db1.clock }
          let db2 := addMsg db1 em
          if fl.commitFails then (db, Except.error "commit failed")
          else
            (tick db2, Except.ok
              { message_id := cm.id
                ai_response := some em.content
                ai_message_id := some em.id
                error := true })
      else
        if fl.commitFails then (db, Except.error "commit failed")
        else (tick db1, Except.ok { message_id := cm.id })

/-- The dict returned by `ChatService.escalate_conversation`. -/
structure EscalateResult where
  success : Bool
  message : String
  estimated_wait_time : String
deriving DecidableEq

/-- `ChatService.escalate_conversation`: resolve the conversation (any
status), unconditionally set status `escalated`, append a `system`
message recording the reason, commit. -/
def escalate_conversation (db : DB) (session_id reason : String) :
    DB × Except String EscalateResult :=
  match findConv db session_id with
  | none => (db, Except.error "Conversation not found")
  | some conv =>
      let db1 := setConvStatus db conv.id ConvStatus.escalated
      let em : MessageR :=
        { id := db1.nextMessageId
          conversation_id := conv.id
          content := "Conversation escalated to human agent. Reason: " ++ reason
          sender_type := SenderType.system
          escalation_reason := some reason
          created_at := db1.clock }
      (tick (addMsg db1 em), Except.ok
        { success := true
          message := "Conversation has been escalated to a human agent"
          estimated_wait_time := "5-10 minutes" })

/-- The dict returned by `ChatService.get_conversation_summary`. -/
structure ConvSummary where
  session_id : String
  customer_email : String
  customer_name : Option String
  status : ConvStatus
  message_count : Nat
  created_at : Nat
deriving DecidableEq

/-- `ChatService.get_conversation_summary`: errors on unknown sessions,
otherwise reports the conversation row plus its message count. -/
def get_conversation_summary (db : DB) (session_id : String) :
    Except String ConvSummary :=
  match findConv db session_id with
  | none => Except.error "Conversation not found"
  | some conv =>
      Except.ok
        { session_id := session_id
          customer_email := conv.customer_email
          customer_name := conv.customer_name
          status := conv.status
          message_count :=
            (db.messages.filter (fun m => decide (m.conversation_id = conv.id))).length
          created_at := conv.created_at }

/-- The dict returned by the MCP tool `process_refund`. -/
structure RefundResult where
  success : Bool
  message : String
  refund_id : Option String := none
  amount : Option String := none
  status : Option String := none
deriving DecidableEq

/-- The synthetic reference id `f"REF-{action.id}"`. -/
def refundRef (i : Nat) : String := "REF-" ++ toString i

/-- MCP tool `process_refund`: unconditionally log a `completed`
SupportAction (with `conversation_id` 0) and return the synthetic
reference id derived from the action's id. -/
def process_refund (db : DB) (customer_email amount reason order_id : String) :
    DB × RefundResult :=
  let act : SupportActionR :=
    { id := db.nextActionId
      conversation_id := 0
      action_type := "refund"
      status := ActionStatus.completed
      customer_email := some customer_email
      amount := some amount
      reason := some reason
      order_id := some order_id
      executed := true }
  ({ db with
      supportActions := db.supportActions ++ [act]
      nextActionId := db.nextActionId + 1 },
   { success := true
     message := "Refund of " ++ amount ++ " has been processed for order " ++ order_id
     refund_id := some (refundRef act.id)
     amount := some amount
     status := some "completed" })

/-- The dict returned by the MCP tool `manage_subscription`. -/
structure SubResult where
  success : Bool
  message : String
  action_id : Option String := none
  new_status : Option String := none
  new_plan : Option String := none
deriving DecidableEq

/-- MCP tool `manage_subscription`: customer looked up by email only; a
missing customer returns a failure dict (no exception, no SupportAction);
for `cancel`/`pause`/`change_plan` a `completed` SupportAction is logged
and the customer row mutated, all in one commit — `change_plan` applies
whatever `new_plan` was given, the empty string included; any other
action name leaves the customer untouched but still commits the
`completed` SupportAction (`db.commit()` runs before the success dict is
built), and only then hits the undefined `message` variable — the
NameError is caught and a failure dict returned, with the action already
persisted. -/
def manage_subscription (db : DB) (customer_email action new_plan : String) :
    DB × SubResult :=
  match findCustomer db customer_email with
  | none => (db, { success := false, message := "Customer not found" })
  | some customer =>
      let act : SupportActionR :=
        { id := db.nextActionId
          conversation_id := 0
          action_type := "subscription_" ++ action
          status := ActionStatus.completed
          customer_email := some customer_email
          old_plan := some customer.subscription_plan
          new_plan := if action = "change_plan" then some new_plan else none
          executed := true }
      let added : DB :=
        { db with
          supportActions := db.supportActions ++ [act]
          nextActionId := db.nextActionId + 1 }
      if action = "cancel" then
        (updCustomer added customer.id
           (fun c => { c with subscription_status := some "cancelled" }),
         { success := true
           message := "Subscription has been cancelled successfully"
           action_id := some ("SUB-" ++ toString act.id)
           new_status := some "cancelled"
           new_plan := customer.subscription_plan })
      else if action = "pause" then
        (updCustomer added customer.id
           (fun c => { c with subscription_status := some "paused" }),
         { success := true
           message := "Subscription has been paused successfully"
           action_id := some ("SUB-" ++ toString act.id)
           new_status := some "paused"
           new_plan := customer.subscription_plan })
      else if action = "change_plan" then
        (updCustomer added customer.id
           (fun c => { c with subscription_plan := some new_plan }),
         { success := true
           message := "Subscription plan changed to " ++ new_plan
           action_id := some ("SUB-" ++ toString act.id)
           new_status := customer.subscription_status
           new_plan := some new_plan })
      else
        (added, { success := false
                  message := "Failed to manage subscription: name \x27message\x27 is not defined" })

/-- The dict returned by the MCP tool `escalate_to_human`. -/
structure EscToolResult where
  success : Bool
  message : String
  escalation_id : Option String := none
  estimated_wait_time : Option String := none
deriving DecidableEq

/-- MCP tool `escalate_to_human`: unconditionally log a new `pending`
SupportAction (with `conversation_id` 0) on every call. -/
def escalate_to_human (db : DB) (customer_email reason conversation_summary : String) :
    DB × EscToolResult :=
  let act : SupportActionR :=
    { id := db.nextActionId
      conversation_id := 0
      action_type := "escalate_to_human"
      status := ActionStatus.pending
      customer_email := some customer_email
      reason := some reason
      summary := some conversation_summary
      executed := true }
  ({ db with
      supportActions := db.supportActions ++ [act]
      nextActionId := db.nextActionId + 1 },
   { success := true
     message := "Your conversation has been escalated to a human agent. You will be contacted shortly."
     escalation_id := some ("ESC-" ++ toString act.id)
     estimated_wait_time := some "5-10 minutes" })

/-!  Helper notions shared by the verification theorems. -/

/-- Whether a turn result reports the degraded-error branch (`"error": True`). -/
def turnErrored : Except String TurnResult → Bool
  | Except.ok t => t.error
  | Except.error _ => false

/-- Number of escalation `system` messages (the ones carrying an
`escalation_reason` metadata key). -/
def escMsgCount (db : DB) : Nat :=
  (db.messages.filter
    (fun m => decide (m.sender_type = SenderType.system) && m.escalation_reason.isSome)).length

/-- Number of degraded AI messages (the degraded-error branch stores an
`error` metadata key on its apology message; no other branch does). -/
def degradedCount (db : DB) : Nat :=
  (db.messages.filter
    (fun m => decide (m.sender_type = SenderType.ai) && m.error.isSome)).length

/-- Support actions of a list left in a non-terminal state. -/
def ntCount (l : List SupportActionR) : Nat :=
  (l.filter (fun a =>
    decide (a.status = ActionStatus.pending) || decide (a.status = ActionStatus.in_progress))).length

/-- Support actions of the store left in a non-terminal state. -/
def nonTerminalCount (db : DB) : Nat := ntCount db.supportActions

/-- Committing (advancing the clock) changes no table. -/
theorem findConv_tick (db : DB) (sid : String) :
    findConv (tick db) sid = findConv db sid := rfl

/-- Committing changes no messages. -/
theorem escMsgCount_tick (db : DB) : escMsgCount (tick db) = escMsgCount db := rfl

/-- Committing changes no messages. -/
theorem degradedCount_tick (db : DB) :
    degradedCount (tick db) = degradedCount db := rfl

/-- Committing changes no rows. -/
theorem historyRows_tick (db : DB) (sid : String) :
    historyRows (tick db) sid = historyRows db sid := rfl

/-- A generation oracle whose external call raises. -/
def oBoom : GenOracle := { raises := true, generate := fun _ => "", errMsg := "boom" }

/-- A generation oracle whose external call succeeds. -/
def oOk : GenOracle := { raises := false, generate := fun _ => "Sure, I can help with that." }

/-- `generate_ai_response` reports success on every input: both the
normal branch and the exception branch return `"success": True`. -/
theorem gen_success (o : GenOracle) (db : DB) (m e : String) (h : List HistEntry) :
    (generate_ai_response o db m e h).success = true := by
  unfold generate_ai_response
  split <;> rfl

/-- Appending a message shifts `degradedCount` by the indicator of the
new message. -/
theorem degradedCount_addMsg (db : DB) (m : MessageR) :
    degradedCount (addMsg db m) = degradedCount db +
      (if decide (m.sender_type = SenderType.ai) && m.error.isSome then 1 else 0) := by
  simp only [degradedCount, addMsg, List.filter_append, List.length_append]
  split <;> rename_i hsp <;> simp [List.filter, hsp]

/-- Appending a message shifts `escMsgCount` by the indicator of the
new message. -/
theorem escMsgCount_addMsg (db : DB) (m : MessageR) :
    escMsgCount (addMsg db m) = escMsgCount db +
      (if decide (m.sender_type = SenderType.system) && m.escalation_reason.isSome then 1 else 0) := by
  simp only [escMsgCount, addMsg, List.filter_append, List.length_append]
  split <;> rename_i hsp <;> simp [List.filter, hsp]

/-- `ntCount` distributes over append. -/
theorem ntCount_app (l1 l2 : List SupportActionR) :
    ntCount (l1 ++ l2) = ntCount l1 + ntCount l2 := by
  simp [ntCount, List.filter_append]

/-- Appending an action shifts `ntCount` by the indicator of the new
action. -/
theorem ntCount_append (l : List SupportActionR) (a : SupportActionR) :
    ntCount (l ++ [a]) = ntCount l +
      (if decide (a.status = ActionStatus.pending) || decide (a.status = ActionStatus.in_progress)
       then 1 else 0) := by
  simp only [ntCount, List.filter_append, List.length_append]
  split <;> rename_i hsp <;> simp [List.filter, hsp]

/-- C6: every `process_refund` call succeeds, creates exactly one new
SupportAction in status `completed`, and returns the synthesized
reference id `REF-<id>` — a deterministic function (`refundRef`) of that
SupportAction's own id. -/
theorem refund_always_completed (db : DB) (customer_email amount reason order_id : String) :
    (process_refund db customer_email amount reason order_id).2.success = true ∧
    (process_refund db customer_email amount reason order_id).2.status = some "completed" ∧
    ∃ a : SupportActionR,
      (process_refund db customer_email amount reason order_id).1.supportActions
        = db.supportActions ++ [a] ∧
      a.status = ActionStatus.completed ∧
      a.action_type = "refund" ∧
      (process_refund db customer_email amount reason order_id).2.refund_id
        = some (refundRef a.id) := by
  exact ⟨rfl, rfl, ⟨_, rfl, rfl, rfl, rfl⟩⟩

/-- The database holding a customer row belonging to organization 2 with
email `a@x.com` — the state another tenant's data occupies. -/
def dbTenant2 : DB :=
  { customers :=
      [{ id := 1, organization_id := some 2, email := "a@x.com",
         name := some "Bob", subscription_status := some "active",
         subscription_plan := some "pro", total_spent := some "100" }]
    nextCustomerId := 2 }

/-- C1: the core operations are not tenant-scoped.  With only an
organization-2 customer on file, a `create_conversation` call made on
behalf of any other tenant reuses that row (no new customer is created),
`get_customer_info` hands out the organization-2 customer's data keyed by
email alone, and the conversation row written carries no organization id
at all — so reads and writes cross tenant boundaries. -/
theorem tenant_scoping_violated :
    (findCustomer dbTenant2 "a@x.com").map (fun c => c.organization_id) = some (some 2) ∧
    (create_conversation dbTenant2 "s1" "a@x.com" none).1.customers = dbTenant2.customers ∧
    ((create_conversation dbTenant2 "s1" "a@x.com" none).1.conversations.map
      (fun c => c.organization_id)) = [none] ∧
    (get_customer_info dbTenant2 "a@x.com").name = "Bob" := by
  exact ⟨rfl, rfl, rfl, rfl⟩

/-- C10: an unknown session id makes `get_conversation_history` return
the empty list without failing, while `send_message`,
`escalate_conversation` and `get_conversation_summary` all fail with the
NotFound error on that same session id (and leave the store untouched). -/
theorem unknown_session_asymmetry (q : QueryOracle) (o : GenOracle) (fl : FailSpec)
    (db : DB) (session_id content reason : String) (st : SenderType)
    (h : findConv db session_id = none) :
    get_conversation_history q db session_id = [] ∧
    send_message o fl db session_id content st = (db, Except.error "Conversation not found") ∧
    escalate_conversation db session_id reason = (db, Except.error "Conversation not found") ∧
    get_conversation_summary db session_id = Except.error "Conversation not found" := by
  refine ⟨?_, ?_, ?_, ?_⟩
  · unfold get_conversation_history
    rw [h]
  · unfold send_message
    rw [h]
  · unfold escalate_conversation
    rw [h]
  · unfold get_conversation_summary
    rw [h]

/-- Witness for C10 at the empty database and session id `s`. -/
theorem unknown_session_asymmetry_witness :
    findConv initDB "s" = none ∧
    (get_conversation_history stableOrd initDB "s" = [] ∧
     send_message oBoom noFail initDB "s" "hi" SenderType.customer
       = (initDB, Except.error "Conversation not found") ∧
     escalate_conversation initDB "s" "r" = (initDB, Except.error "Conversation not found") ∧
     get_conversation_summary initDB "s" = Except.error "Conversation not found") :=
  ⟨rfl, unknown_session_asymmetry stableOrd oBoom noFail initDB "s" "hi" "r"
    SenderType.customer rfl⟩

/-- C9: `generate_ai_response` reports `success = True` on every input —
when the external call raises it returns the fixed mock response, still
with `success = True` — so the degraded-error branch of `send_message`
is unreachable: no turn result carries `"error": True` and no apology
message (the only messages carrying an `error` metadata key) is ever
appended. -/
theorem ai_error_branch_unreachable (o : GenOracle) (fl : FailSpec) (db : DB)
    (session_id content m e : String) (st : SenderType) (h : List HistEntry) :
    (generate_ai_response o db m e h).success = true ∧
    (o.raises = true → (generate_ai_response o db m e h).response = fallbackText) ∧
    turnErrored (send_message o fl db session_id content st).2 = false ∧
    degradedCount (send_message o fl db session_id content st).1 = degradedCount db := by
  refine ⟨gen_success o db m e h, ?_, ?_, ?_⟩
  · intro ho
    simp [generate_ai_response, ho]
  · cases hf : findConv db session_id with
    | none => simp [send_message, hf, turnErrored]
    | some conv =>
      cases hfl : fl.flushFails with
      | true => simp [send_message, hf, hfl, turnErrored]
      | false =>
        cases hc : fl.commitFails with
        | true =>
          by_cases hst : st = SenderType.customer <;>
            simp [send_message, hf, hfl, hc, hst, turnErrored, gen_success]
        | false =>
          by_cases hst : st = SenderType.customer <;>
            simp [send_message, hf, hfl, hc, hst, turnErrored, gen_success]
  · cases hf : findConv db session_id with
    | none => simp [send_message, hf]
    | some conv =>
      cases hfl : fl.flushFails with
      | true => simp [send_message, hf, hfl]
      | false =>
        cases hc : fl.commitFails with
        | true =>
          by_cases hst : st = SenderType.customer <;>
            simp [send_message, hf, hfl, hc, hst, gen_success]
        | false =>
          by_cases hst : st = SenderType.customer <;>
            simp [send_message, hf, hfl, hc, hst, gen_success, degradedCount_tick,
              degradedCount_addMsg]

/-- Witness for C9: the oracle that raises, on a database holding one
conversation. -/
theorem ai_error_branch_unreachable_witness :
    oBoom.raises = true ∧
    (generate_ai_response oBoom (create_conversation initDB "s" "a@x.com" none).1
      "m" "a@x.com" []).response = fallbackText :=
  ⟨rfl, (ai_error_branch_unreachable oBoom noFail
      (create_conversation initDB "s" "a@x.com" none).1
      "s" "hi" "m" "a@x.com" SenderType.customer []).2.1 rfl⟩

/-- C7: one `send_message` turn commits atomically.  Whatever the
persistence failure oracle injects, the committed store either is exactly
the pre-turn store (with the call reporting an error), or contains the
complete turn: customer tables, conversation rows and SupportActions
untouched, the prior messages unchanged in place, and the appended tail
being precisely the customer message (its content intact) followed by
the AI message when the sender is a customer, or the lone inbound
message otherwise.  No failure point leaves a partial subset. -/
theorem send_message_turn_atomic (o : GenOracle) (fl : FailSpec) (db : DB)
    (session_id content : String) (st : SenderType) :
    ((send_message o fl db session_id content st).1 = db ∧
      (send_message o fl db session_id content st).2.isOk = false) ∨
    ((send_message o fl db session_id content st).2.isOk = true ∧
      (send_message o fl db session_id content st).1.customers = db.customers ∧
      (send_message o fl db session_id content st).1.conversations = db.conversations ∧
      (send_message o fl db session_id content st).1.supportActions = db.supportActions ∧
      (send_message o fl db session_id content st).1.messages.take db.messages.length
        = db.messages ∧
      ((send_message o fl db session_id content st).1.messages.drop db.messages.length).map
          (fun mm => mm.sender_type)
        = (if st = SenderType.customer then [SenderType.customer, SenderType.ai] else [st]) ∧
      (((send_message o fl db session_id content st).1.messages.drop db.messages.length).head?).map
          (fun mm => mm.content) = some content) := by
  cases hf : findConv db session_id with
  | none => left; simp [send_message, hf, Except.isOk, Except.toBool]
  | some conv =>
    cases hfl : fl.flushFails with
    | true => left; simp [send_message, hf, hfl, Except.isOk, Except.toBool]
    | false =>
      cases hc : fl.commitFails with
      | true =>
        by_cases hst : st = SenderType.customer <;>
          { left; simp [send_message, hf, hfl, hc, hst, gen_success, Except.isOk, Except.toBool] }
      | false =>
        by_cases hst : st = SenderType.customer
        · right
          refine ⟨?_, ?_, ?_, ?_, ?_, ?_, ?_⟩ <;>
            simp [send_message, hf, hfl, hc, hst, gen_success, addMsg, tick,
              Except.isOk, Except.toBool, List.append_assoc, List.take_left, List.drop_left]
        · right
          refine ⟨?_, ?_, ?_, ?_, ?_, ?_, ?_⟩ <;>
            simp [send_message, hf, hfl, hc, hst, addMsg, tick, Except.isOk, Except.toBool,
              List.append_assoc, List.take_left, List.drop_left]

/-- A database holding one archived conversation with session id `s`. -/
def dbArchived : DB :=
  { conversations := [{ id := 1, session_id := "s", customer_email := "a@x.com",
                        status := ConvStatus.archived, created_at := 0 }]
    nextConversationId := 2 }

/-- Counterexample to C3: `send_message` does not fail on an archived
conversation — the lookup has no status filter, so a message sent to the
archived conversation `s` is processed normally instead of failing with
NotFound. -/
theorem archived_conversation_not_rejected :
    (findConv dbArchived "s").map (fun c => c.status) = some ConvStatus.archived ∧
    (send_message oBoom noFail dbArchived "s" "hi" SenderType.customer).2.isOk = true := by
  exact ⟨rfl, rfl⟩

/-- C3 (amended): `send_message` fails with the NotFound error exactly
when the session id resolves to no Conversation row at all; the archived
status is not checked, so any existing conversation — archived included —
is processed. -/
theorem send_message_notfound_iff_unknown (o : GenOracle) (db : DB)
    (session_id content : String) (st : SenderType) :
    (findConv db session_id = none →
      send_message o noFail db session_id content st
        = (db, Except.error "Conversation not found")) ∧
    (∀ conv, findConv db session_id = some conv →
      (send_message o noFail db session_id content st).2.isOk = true) := by
  constructor
  · intro h
    unfold send_message
    rw [h]
  · intro conv h
    by_cases hst : st = SenderType.customer <;>
      simp [send_message, h, noFail, hst, gen_success, Except.isOk, Except.toBool]

/-- Witness for C3 at the empty database (unknown session) and at the
archived conversation. -/
theorem send_message_notfound_iff_unknown_witness :
    findConv initDB "s" = none ∧
    send_message oOk noFail initDB "s" "hi" SenderType.customer
      = (initDB, Except.error "Conversation not found") ∧
    findConv dbArchived "s"
      = some ⟨1, none, "s", "a@x.com", none, ConvStatus.archived, 0⟩ ∧
    (send_message oOk noFail dbArchived "s" "hi" SenderType.customer).2.isOk = true :=
  ⟨rfl,
   (send_message_notfound_iff_unknown oOk initDB "s" "hi" SenderType.customer).1 rfl,
   rfl,
   (send_message_notfound_iff_unknown oOk dbArchived "s" "hi" SenderType.customer).2
     ⟨1, none, "s", "a@x.com", none, ConvStatus.archived, 0⟩ rfl⟩

/-- A database holding one active conversation with session id `s`. -/
def dbActive : DB :=
  { conversations := [{ id := 1, session_id := "s", customer_email := "a@x.com",
                        status := ConvStatus.active, created_at := 0 }]
    nextConversationId := 2 }

/-- Counterexample to C2: escalating the conversation twice in a row
leaves TWO escalation `system` messages (not one) and ZERO escalation
SupportActions (the service writes none at all), even though the second
call runs on an already-`escalated` conversation. -/
theorem double_escalation_duplicates :
    (findConv (escalate_conversation dbActive "s" "r").1 "s").map (fun c => c.status)
      = some ConvStatus.escalated ∧
    escMsgCount (escalate_conversation (escalate_conversation dbActive "s" "r").1 "s" "r").1 = 2 ∧
    escMsgCount (escalate_conversation (escalate_conversation dbActive "s" "r").1 "s" "r").1 ≠ 1 ∧
    (escalate_conversation (escalate_conversation dbActive "s" "r").1 "s" "r").1.supportActions.length
      = 0 := by
  refine ⟨?_, ?_, ?_, ?_⟩ <;> decide

/-- Appending a message does not change conversation lookups. -/
theorem findConv_addMsg (db : DB) (m : MessageR) (sid : String) :
    findConv (addMsg db m) sid = findConv db sid := rfl

/-- List form of the status-update/lookup commutation. -/
theorem find?_status_map (l : List ConversationR) (cid : Nat) (st : ConvStatus) (sid : String) :
    (l.map (fun c => if c.id = cid then { c with status := st } else c)).find?
        (fun c => decide (c.session_id = sid))
      = (l.find? (fun c => decide (c.session_id = sid))).map
          (fun c => if c.id = cid then { c with status := st } else c) := by
  induction l with
  | nil => rfl
  | cons x xs ih =>
    by_cases hx : x.session_id = sid
    · have h1 : ((if x.id = cid then { x with status := st } else x).session_id = sid) := by
        split <;> exact hx
      simp only [List.map_cons, List.find?]
      rw [decide_eq_true h1, decide_eq_true hx]
      rfl
    · have h1 : ¬((if x.id = cid then { x with status := st } else x).session_id = sid) := by
        split <;> exact hx
      simp only [List.map_cons, List.find?]
      rw [decide_eq_false h1, decide_eq_false hx]
      exact ih

/-- A status update commutes with session-id lookup: the lookup returns
the updated row. -/
theorem findConv_setConvStatus (db : DB) (cid : Nat) (st : ConvStatus) (sid : String) :
    findConv (setConvStatus db cid st) sid
      = (findConv db sid).map (fun c => if c.id = cid then { c with status := st } else c) :=
  find?_status_map db.conversations cid st sid

/-- A status update does not change the message table. -/
theorem escMsgCount_setConvStatus (db : DB) (cid : Nat) (st : ConvStatus) :
    escMsgCount (setConvStatus db cid st) = escMsgCount db := rfl

/-- `escalate_conversation` never writes a SupportAction. -/
theorem escalate_supportActions (db : DB) (sid reason : String) :
    (escalate_conversation db sid reason).1.supportActions = db.supportActions := by
  unfold escalate_conversation
  cases hf : findConv db sid <;> rfl

/-- Each `escalate_conversation` call on a resolvable session appends one
more escalation `system` message. -/
theorem escMsgCount_escalate (db : DB) (sid reason : String) (conv : ConversationR)
    (h : findConv db sid = some conv) :
    escMsgCount (escalate_conversation db sid reason).1 = escMsgCount db + 1 := by
  simp [escalate_conversation, h, escMsgCount_tick, escMsgCount_addMsg,
    escMsgCount_setConvStatus]

/-- C2 (amended): escalation is not idempotent.  Every
`escalate_conversation` call on a resolvable session — already-escalated
or not — returns the same fixed success outcome but appends one more
escalation `system` message, so two calls in a row append two; the chat
service writes no escalation SupportAction at all.  The separate
`escalate_to_human` MCP tool is likewise non-idempotent: each call logs
one more `pending` SupportAction. -/
theorem escalate_never_idempotent (db : DB)
    (session_id reason r2 customer_email reason2 summary : String)
    (conv : ConversationR) (h : findConv db session_id = some conv) :
    escMsgCount (escalate_conversation (escalate_conversation db session_id reason).1 session_id r2).1
      = escMsgCount db + 2 ∧
    (escalate_conversation (escalate_conversation db session_id reason).1 session_id r2).1.supportActions
      = db.supportActions ∧
    (escalate_conversation db session_id reason).2
      = Except.ok { success := true,
                    message := "Conversation has been escalated to a human agent",
                    estimated_wait_time := "5-10 minutes" } ∧
    (findConv (escalate_conversation db session_id reason).1 session_id).map (fun c => c.status)
      = some ConvStatus.escalated ∧
    (escalate_to_human (escalate_to_human db customer_email reason2 summary).1
        customer_email reason2 summary).1.supportActions.length
      = db.supportActions.length + 2 ∧
    ntCount (escalate_to_human (escalate_to_human db customer_email reason2 summary).1
        customer_email reason2 summary).1.supportActions
      = ntCount db.supportActions + 2 := by
  have h1 : findConv (escalate_conversation db session_id reason).1 session_id
      = some { conv with status := ConvStatus.escalated } := by
    simp [escalate_conversation, h, findConv_tick, findConv_addMsg, findConv_setConvStatus]
  refine ⟨?_, ?_, ?_, ?_, ?_, ?_⟩
  · rw [escMsgCount_escalate _ _ _ _ h1, escMsgCount_escalate _ _ _ _ h]
  · rw [escalate_supportActions, escalate_supportActions]
  · simp [escalate_conversation, h]
  · rw [h1]
    rfl
  · simp [escalate_to_human]
  · simp only [escalate_to_human]
    rw [ntCount_app, ntCount_app]
    rfl

/-- Witness for C2 (amended) on the single active conversation `s`. -/
theorem escalate_never_idempotent_witness :
    findConv dbActive "s" = some ⟨1, none, "s", "a@x.com", none, ConvStatus.active, 0⟩ ∧
    escMsgCount (escalate_conversation (escalate_conversation dbActive "s" "r").1 "s" "r").1
      = escMsgCount dbActive + 2 :=
  ⟨rfl, (escalate_never_idempotent dbActive "s" "r" "r" "a@x.com" "r2" "sum"
      ⟨1, none, "s", "a@x.com", none, ConvStatus.active, 0⟩ rfl).1⟩

/-- Counterexample to C4: the fallback result's tool-request list is not
empty — the mock response carries the fixed two-element
`suggested_actions` list. -/
theorem fallback_tool_list_nonempty :
    (generate_ai_response oBoom initDB "m" "e" []).suggested_actions
      = ["billing_inquiry", "subscription_change"] ∧
    (generate_ai_response oBoom initDB "m" "e" []).suggested_actions ≠ [] := by
  exact ⟨rfl, by decide⟩

/-- C4 (amended): on external-call failure the gateway does not raise
and returns the deterministic fallback — fixed text, fixed confidence
0.75 strictly below the success-path 0.85 — but with the fixed non-empty
suggested-action list `[billing_inquiry, subscription_change]` rather
than no tool requests; `send_message` then still completes the turn,
committing the customer message plus a non-empty AI message carrying the
fallback text. -/
theorem gateway_fallback_deterministic (o o2 : GenOracle) (db : DB)
    (session_id content m e : String) (h : List HistEntry) (conv : ConversationR)
    (ho : o.raises = true) (ho2 : o2.raises = false)
    (hc : findConv db session_id = some conv) :
    (generate_ai_response o db m e h).success = true ∧
    (generate_ai_response o db m e h).response = fallbackText ∧
    (generate_ai_response o db m e h).confidence = 75/100 ∧
    (generate_ai_response o2 db m e h).confidence = 85/100 ∧
    (generate_ai_response o db m e h).confidence
      < (generate_ai_response o2 db m e h).confidence ∧
    (generate_ai_response o db m e h).suggested_actions
      = ["billing_inquiry", "subscription_change"] ∧
    (send_message o noFail db session_id content SenderType.customer).2
      = Except.ok { message_id := db.nextMessageId,
                    ai_response := some fallbackText,
                    ai_message_id := some (db.nextMessageId + 1),
                    confidence := some (75/100),
                    error := false } ∧
    (send_message o noFail db session_id content SenderType.customer).1.messages
      = db.messages ++
        [{ id := db.nextMessageId, conversation_id := conv.id, content := content,
           sender_type := SenderType.customer, created_at := db.clock },
         { id := db.nextMessageId + 1, conversation_id := conv.id, content := fallbackText,
           sender_type := SenderType.ai, confidence := some (75/100),
           suggested_actions := some ["billing_inquiry", "subscription_change"],
           created_at := db.clock }] ∧
    fallbackText ≠ "" := by
  refine ⟨gen_success o db m e h, ?_, ?_, ?_, ?_, ?_, ?_, ?_, ?_⟩
  · simp [generate_ai_response, ho]
  · simp [generate_ai_response, ho]
  · simp [generate_ai_response, ho2]
  · simp only [generate_ai_response, ho, ho2]
    norm_num
  · simp [generate_ai_response, ho]
  · simp [send_message, hc, noFail, generate_ai_response, ho, addMsg, tick]
  · simp [send_message, hc, noFail, generate_ai_response, ho, addMsg, tick, List.append_assoc]
  · decide

/-- Witness for C4 on a freshly created conversation with the raising
and the succeeding oracle. -/
theorem gateway_fallback_deterministic_witness :
    oBoom.raises = true ∧ oOk.raises = false ∧
    findConv (create_conversation initDB "s" "a@x.com" none).1 "s"
      = some ⟨1, none, "s", "a@x.com", none, ConvStatus.active, 0⟩ ∧
    (generate_ai_response oBoom (create_conversation initDB "s" "a@x.com" none).1
      "m" "a@x.com" []).response = fallbackText :=
  ⟨rfl, rfl, rfl,
   (gateway_fallback_deterministic oBoom oOk (create_conversation initDB "s" "a@x.com" none).1
     "s" "hi" "m" "a@x.com" [] ⟨1, none, "s", "a@x.com", none, ConvStatus.active, 0⟩
     rfl rfl rfl).2.1⟩

/-- A database holding one customer on the `pro` plan. -/
def dbCustomer : DB :=
  { customers := [{ id := 1, email := "a@x.com", subscription_status := some "active",
                    subscription_plan := some "pro" }]
    nextCustomerId := 2 }

/-- Counterexample to C5: a `change_plan` request with no target plan is
not rejected with InvalidArgument — it succeeds, silently setting the
customer's plan to the empty string. -/
theorem change_plan_without_plan_succeeds :
    (manage_subscription dbCustomer "a@x.com" "change_plan" "").2.success = true ∧
    (manage_subscription dbCustomer "a@x.com" "change_plan" "").2.new_plan = some "" ∧
    ((manage_subscription dbCustomer "a@x.com" "change_plan" "").1.customers.map
      (fun c => c.subscription_plan)) = [some ""] := by
  refine ⟨rfl, rfl, ?_⟩
  decide

/-- C5 (amended): `manage_subscription` returns a failure dict (not an
InvalidArgument error) when the customer is missing, creating nothing;
a `change_plan` with an empty target plan is accepted and completes,
logging a `completed` SupportAction and setting the plan to the given
string; no call ever leaves a SupportAction in a non-terminal
(`pending`/`in_progress`) state — an unrecognized action also returns a
failure dict, but only after its `completed` SupportAction was already
committed (the commit precedes the NameError), with the customer row
untouched. -/
theorem subscription_failure_modes (db : DB) (customer_email action new_plan : String) :
    (findCustomer db customer_email = none →
      manage_subscription db customer_email action new_plan
        = (db, { success := false, message := "Customer not found" })) ∧
    (∀ c, findCustomer db customer_email = some c → action = "change_plan" →
      (manage_subscription db customer_email action new_plan).2.success = true ∧
      (manage_subscription db customer_email action new_plan).2.new_plan = some new_plan ∧
      ∃ a : SupportActionR,
        (manage_subscription db customer_email action new_plan).1.supportActions
          = db.supportActions ++ [a] ∧ a.status = ActionStatus.completed) ∧
    nonTerminalCount (manage_subscription db customer_email action new_plan).1
      = nonTerminalCount db ∧
    (∀ c, findCustomer db customer_email = some c →
      action ≠ "cancel" → action ≠ "pause" → action ≠ "change_plan" →
      (manage_subscription db customer_email action new_plan).2.success = false ∧
      (manage_subscription db customer_email action new_plan).1.customers = db.customers ∧
      ∃ a : SupportActionR,
        (manage_subscription db customer_email action new_plan).1.supportActions
          = db.supportActions ++ [a] ∧ a.status = ActionStatus.completed) := by
  refine ⟨?_, ?_, ?_, ?_⟩
  · intro hfc
    unfold manage_subscription
    rw [hfc]
  · intro c hfc ha
    subst ha
    simp only [manage_subscription, hfc, if_true]
    exact ⟨rfl, rfl, ⟨_, rfl, rfl⟩⟩
  · cases hfc : findCustomer db customer_email with
    | none => simp [manage_subscription, hfc]
    | some c =>
      simp only [manage_subscription, hfc]
      by_cases h1 : action = "cancel"
      · rw [if_pos h1]
        simp only [nonTerminalCount, updCustomer]
        rw [ntCount_app]
        rfl
      · rw [if_neg h1]
        by_cases h2 : action = "pause"
        · rw [if_pos h2]
          simp only [nonTerminalCount, updCustomer]
          rw [ntCount_app]
          rfl
        · rw [if_neg h2]
          by_cases h3 : action = "change_plan"
          · rw [if_pos h3]
            simp only [nonTerminalCount, updCustomer]
            rw [ntCount_app]
            rfl
          · rw [if_neg h3]
            simp only [nonTerminalCount]
            rw [ntCount_app]
            rfl
  · intro c hfc n1 n2 n3
    simp only [manage_subscription, hfc]
    rw [if_neg n1, if_neg n2, if_neg n3]
    exact ⟨rfl, rfl, ⟨_, rfl, rfl⟩⟩

/-- Witness for C5: the missing customer, the empty-plan change, and an
unrecognized action. -/
theorem subscription_failure_modes_witness :
    findCustomer initDB "b@x.com" = none ∧
    manage_subscription initDB "b@x.com" "change_plan" "gold"
      = (initDB, { success := false, message := "Customer not found" }) ∧
    findCustomer dbCustomer "a@x.com"
      = some ⟨1, none, "a@x.com", none, some "active", some "pro", none⟩ ∧
    (manage_subscription dbCustomer "a@x.com" "change_plan" "").2.success = true ∧
    (manage_subscription dbCustomer "a@x.com" "freeze" "").2.success = false :=
  ⟨rfl,
   (subscription_failure_modes initDB "b@x.com" "change_plan" "gold").1 rfl,
   rfl,
   ((subscription_failure_modes dbCustomer "a@x.com" "change_plan" "").2.1
     ⟨1, none, "a@x.com", none, some "active", some "pro", none⟩ rfl rfl).1,
   ((subscription_failure_modes dbCustomer "a@x.com" "freeze" "").2.2.2
     ⟨1, none, "a@x.com", none, some "active", some "pro", none⟩ rfl
     (by decide) (by decide) (by decide)).1⟩

/-- Store well-formedness: message rows appear in non-decreasing
`created_at` order (each operation stamps its rows with the transaction
timestamp and the clock advances at commit) and every stored timestamp
lies below the clock.  It holds for the empty store and is preserved by
every turn. -/
def WF (db : DB) : Prop :=
  List.Pairwise (fun a b : MessageR => a.created_at ≤ b.created_at) db.messages ∧
  ∀ m ∈ db.messages, m.created_at < db.clock

instance (db : DB) : Decidable (WF db) := by
  unfold WF
  exact instDecidableAnd

/-- Appending one transaction-stamped message and committing preserves
`WF`. -/
theorem WF_tick_addMsg (db : DB) (m : MessageR) (hwf : WF db)
    (hm : m.created_at = db.clock) : WF (tick (addMsg db m)) := by
  constructor
  · show List.Pairwise _ (db.messages ++ [m])
    rw [List.pairwise_append]
    refine ⟨hwf.1, by simp, ?_⟩
    intro a ha b hb
    rw [List.mem_singleton] at hb
    subst hb
    rw [hm]
    exact Nat.le_of_lt (hwf.2 a ha)
  · intro x hx
    show x.created_at < db.clock + 1
    rcases List.mem_append.mp hx with h1 | h1
    · exact Nat.lt_succ_of_lt (hwf.2 x h1)
    · rw [List.mem_singleton] at h1
      subst h1
      rw [hm]
      exact Nat.lt_succ_self _

/-- Appending the two tied messages of one customer turn and committing
preserves `WF` — the two share the transaction timestamp. -/
theorem WF_tick_addMsg_two (db : DB) (m1 m2 : MessageR) (hwf : WF db)
    (h1 : m1.created_at = db.clock) (h2 : m2.created_at = db.clock) :
    WF (tick (addMsg (addMsg db m1) m2)) := by
  constructor
  · show List.Pairwise _ (db.messages ++ [m1] ++ [m2])
    rw [List.pairwise_append, List.pairwise_append]
    refine ⟨⟨hwf.1, by simp, ?_⟩, by simp, ?_⟩
    · intro a ha b hb
      rw [List.mem_singleton] at hb
      subst hb
      rw [h1]
      exact Nat.le_of_lt (hwf.2 a ha)
    · intro a ha b hb
      rw [List.mem_singleton] at hb
      subst hb
      rw [h2]
      rcases List.mem_append.mp ha with ha1 | ha1
      · exact Nat.le_of_lt (hwf.2 a ha1)
      · rw [List.mem_singleton] at ha1
        subst ha1
        exact Nat.le_of_eq h1
  · intro x hx
    show x.created_at < db.clock + 1
    rcases List.mem_append.mp hx with hx1 | hx1
    · rcases List.mem_append.mp hx1 with hx2 | hx2
      · exact Nat.lt_succ_of_lt (hwf.2 x hx2)
      · rw [List.mem_singleton] at hx2
        subst hx2
        rw [h1]
        exact Nat.lt_succ_self _
    · rw [List.mem_singleton] at hx1
      subst hx1
      rw [h2]
      exact Nat.lt_succ_self _

/-- Appending a message only extends a conversation's row list. -/
theorem historyRows_addMsg (db : DB) (m : MessageR) (sid : String) :
    ∃ tail, historyRows (addMsg db m) sid = historyRows db sid ++ tail := by
  unfold historyRows
  rw [findConv_addMsg]
  cases hc : findConv db sid with
  | none => exact ⟨[], rfl⟩
  | some conv =>
      dsimp only
      refine ⟨List.filter (fun mm => decide (mm.conversation_id = conv.id)) [m], ?_⟩
      rw [show (addMsg db m).messages = db.messages ++ [m] from rfl, List.filter_append]

/-- The first message a turn appends (id assigned by the store, stamped
with the transaction timestamp). -/
def custMsg (db : DB) (conv : ConversationR) (content : String) (st : SenderType) : MessageR :=
  { id := db.nextMessageId, conversation_id := conv.id, content := content,
    sender_type := st, created_at := db.clock }

/-- The AI message a customer turn appends — same transaction, same
timestamp as the customer message. -/
def aiMsg (o : GenOracle) (db : DB) (conv : ConversationR) (content sid : String) : MessageR :=
  let db1 := addMsg db (custMsg db conv content SenderType.customer)
  let ai := generate_ai_response o db content conv.customer_email
    (get_conversation_history stableOrd db1 sid)
  { id := db1.nextMessageId, conversation_id := conv.id, content := ai.response,
    sender_type := SenderType.ai, confidence := some ai.confidence,
    suggested_actions := some ai.suggested_actions, created_at := db1.clock }

/-- Every turn preserves well-formedness and only appends rows to any
conversation. -/
theorem send_message_rows_extend (o : GenOracle) (fl : FailSpec) (db : DB)
    (sid2 content : String) (st : SenderType) (sid : String) (hwf : WF db) :
    WF (send_message o fl db sid2 content st).1 ∧
    ∃ tail, historyRows (send_message o fl db sid2 content st).1 sid
      = historyRows db sid ++ tail := by
  cases hf : findConv db sid2 with
  | none =>
      have he : (send_message o fl db sid2 content st).1 = db := by simp [send_message, hf]
      rw [he]
      exact ⟨hwf, ⟨[], (List.append_nil _).symm⟩⟩
  | some conv =>
      cases hfl : fl.flushFails with
      | true =>
          have he : (send_message o fl db sid2 content st).1 = db := by
            simp [send_message, hf, hfl]
          rw [he]
          exact ⟨hwf, ⟨[], (List.append_nil _).symm⟩⟩
      | false =>
          cases hc : fl.commitFails with
          | true =>
              have he : (send_message o fl db sid2 content st).1 = db := by
                by_cases hst : st = SenderType.customer <;>
                  simp [send_message, hf, hfl, hc, hst, gen_success]
              rw [he]
              exact ⟨hwf, ⟨[], (List.append_nil _).symm⟩⟩
          | false =>
              by_cases hst : st = SenderType.customer
              · have he : (send_message o fl db sid2 content st).1
                    = tick (addMsg (addMsg db (custMsg db conv content SenderType.customer))
                        (aiMsg o db conv content sid2)) := by
                  simp [send_message, hf, hfl, hc, hst, gen_success, custMsg, aiMsg]
                rw [he]
                refine ⟨WF_tick_addMsg_two _ _ _ hwf rfl rfl, ?_⟩
                rw [historyRows_tick]
                obtain ⟨t1, ht1⟩ := historyRows_addMsg db
                  (custMsg db conv content SenderType.customer) sid
                obtain ⟨t2, ht2⟩ := historyRows_addMsg
                  (addMsg db (custMsg db conv content SenderType.customer))
                  (aiMsg o db conv content sid2) sid
                exact ⟨t1 ++ t2, by rw [ht2, ht1, List.append_assoc]⟩
              · have he : (send_message o fl db sid2 content st).1
                    = tick (addMsg db (custMsg db conv content st)) := by
                  simp [send_message, hf, hfl, hc, hst, custMsg]
                rw [he]
                refine ⟨WF_tick_addMsg _ _ hwf rfl, ?_⟩
                rw [historyRows_tick]
                exact historyRows_addMsg db (custMsg db conv content st) sid

/-- The store after one created conversation and one customer turn: the
customer and AI messages were written in one transaction and share a
`created_at`. -/
def dbTie : DB :=
  (send_message oBoom noFail (create_conversation initDB "s" "a@x.com" none).1
    "s" "hi" SenderType.customer).1

/-- A database order that reverses the queried rows. -/
def swapQ : QueryOracle := ⟨List.reverse⟩

/-- Counterexample to C8: the two messages of one turn tie on
`created_at` (`func.now()` is transaction-frozen), so the reversed order
is also a legitimate result of the un-tiebroken `ORDER BY created_at`;
under it the history comes back AI-before-customer — not the insertion
order — and its timestamps are not strictly increasing. -/
theorem tied_turn_reorderable :
    (historyRows dbTie "s").map (fun m => (m.sender_type, m.created_at))
      = [(SenderType.customer, 1), (SenderType.ai, 1)] ∧
    SortedOf (swapQ.sort (historyRows dbTie "s")) (historyRows dbTie "s") ∧
    (get_conversation_history swapQ dbTie "s").map (fun e => e.sender)
      = [SenderType.ai, SenderType.customer] ∧
    ¬ List.Pairwise (fun a b : HistEntry => a.timestamp < b.timestamp)
        (get_conversation_history swapQ dbTie "s") := by
  refine ⟨by decide, ⟨List.reverse_perm _, by decide⟩, by decide, by decide⟩

/-- C8 (amended): whatever tie order the database picks, the history is
sorted by non-decreasing `created_at` and contains exactly the
conversation's rows; the rows themselves carry non-decreasing timestamps
in insertion order; and the table is append-only — a later turn
preserves well-formedness and only appends rows, never changing an
earlier message.  Strict timestamp increase, and insertion order for the
two tied messages of one turn, are not guaranteed (see the
counterexample). -/
theorem history_sorted_append_only (q : QueryOracle) (o : GenOracle) (fl : FailSpec)
    (db : DB) (sid sid2 content : String) (st : SenderType) (hwf : WF db)
    (hq : SortedOf (q.sort (historyRows db sid)) (historyRows db sid)) :
    List.Pairwise (fun a b : HistEntry => a.timestamp ≤ b.timestamp)
      (get_conversation_history q db sid) ∧
    (get_conversation_history q db sid).Perm ((historyRows db sid).map toEntry) ∧
    List.Pairwise (fun a b : MessageR => a.created_at ≤ b.created_at)
      (historyRows db sid) ∧
    WF (send_message o fl db sid2 content st).1 ∧
    (∃ tail, historyRows (send_message o fl db sid2 content st).1 sid
        = historyRows db sid ++ tail) := by
  refine ⟨?_, ?_, ?_, (send_message_rows_extend o fl db sid2 content st sid hwf).1,
    (send_message_rows_extend o fl db sid2 content st sid hwf).2⟩
  · unfold get_conversation_history
    cases hc : findConv db sid with
    | none => exact List.Pairwise.nil
    | some conv =>
        dsimp only
        rw [List.pairwise_map]
        exact hq.2
  · unfold get_conversation_history
    cases hc : findConv db sid with
    | none =>
        have h0 : historyRows db sid = [] := by
          unfold historyRows
          rw [hc]
        rw [h0]
        exact List.Perm.nil
    | some conv =>
        dsimp only
        exact hq.1.map toEntry
  · unfold historyRows
    cases hc : findConv db sid with
    | none => exact List.Pairwise.nil
    | some conv =>
        dsimp only
        exact hwf.1.filter _

/-- Witness for C8 (amended) on the one-turn store, with the identity
order (valid there: the rows are already sorted). -/
theorem history_sorted_append_only_witness :
    WF dbTie ∧
    SortedOf (idOrd.sort (historyRows dbTie "s")) (historyRows dbTie "s") ∧
    List.Pairwise (fun a b : HistEntry => a.timestamp ≤ b.timestamp)
      (get_conversation_history idOrd dbTie "s") :=
  ⟨by decide, ⟨List.Perm.refl _, by decide⟩,
   (history_sorted_append_only idOrd oBoom noFail dbTie "s" "s" "again"
     SenderType.customer (by decide) ⟨List.Perm.refl _, by decide⟩).1⟩
